import Mathlib

/-!
Shallow embedding of `errata2cv.py` (Satellite 6 content-view errata updater).

The script resolves content views, collects errata ids matching a composed
search expression, publishes an incremental content-view version, polls the
resulting task, and optionally fires a remote-execution job.  We model the
per-content-view processing of `main` as a pure function from the command-line
arguments and a per-view oracle of server responses to a trace of observable
effects (log lines, sleeps, GET/POST requests) plus an optional abnormal
termination (an uncaught Python exception).
-/

namespace Errata2cv

/-! ## Python string helpers (ASCII-level models of `str` methods) -/

/-- Model of Python `str.lower` (ASCII). -/
def pyLower (s : String) : String := String.mk (s.data.map Char.toLower)

/-- Model of Python `str.capitalize`: first character upper-cased, rest
lower-cased (ASCII). -/
def pyCapitalize (s : String) : String :=
  match s.data with
  | [] => ""
  | c :: cs => String.mk (c.toUpper :: cs.map Char.toLower)

/-- Split a character list on a separator character; models Python
`str.split(sep)` for a one-character separator. -/
def splitCharAux (sep : Char) (cur : List Char) : List Char → List (List Char)
  | [] => [cur.reverse]
  | c :: cs =>
      if c = sep then cur.reverse :: splitCharAux sep [] cs
      else splitCharAux sep (c :: cur) cs

/-- Model of Python `s.split(sep)` for a one-character separator. -/
def pySplit (sep : Char) (s : String) : List String :=
  (splitCharAux sep [] s.data).map String.mk

/-- Model of Python `sep.join(parts)`. -/
def joinSep (sep : String) : List String → String
  | [] => ""
  | [s] => s
  | s :: rest => s ++ sep ++ joinSep sep rest

/-! ## Date handling: `datetime.strptime(s, "%Y-%m-%d  %X %Z")` followed by
`strftime('%Y/%m/%d')`.  `strptime` treats a whitespace run in the format as
matching any whitespace run in the input; we model the pattern-level match
(field shapes and numeric ranges). -/

structure Date where
  year : Nat
  month : Nat
  day : Nat
deriving DecidableEq

/-- Numeric value of a digit string. -/
def digitsVal (s : String) : Nat :=
  s.data.foldl (fun a c => a * 10 + (c.toNat - 48)) 0

/-- Parse a run of digits with a length window and a value range, as the
`strptime` regular expressions for `%Y`/`%m`/`%d`/`%H`/`%M`/`%S` do. -/
def parseNum (s : String) (minLen maxLen lo hi : Nat) : Option Nat :=
  if s.length ≥ minLen && s.length ≤ maxLen && s.data.all Char.isDigit then
    if lo ≤ digitsVal s && digitsVal s ≤ hi then some (digitsVal s) else none
  else none

/-- Parse the `%Y-%m-%d` field. -/
def parseDateField (s : String) : Option Date :=
  match pySplit '-' s with
  | [y, m, d] =>
      match parseNum y 4 4 0 9999, parseNum m 1 2 1 12, parseNum d 1 2 1 31 with
      | some yv, some mv, some dv => some ⟨yv, mv, dv⟩
      | _, _, _ => none
  | _ => none

/-- Validate the `%X` (= `%H:%M:%S`) field. -/
def parseTimeField (s : String) : Bool :=
  match pySplit ':' s with
  | [h, m, sec] =>
      (parseNum h 1 2 0 23).isSome && (parseNum m 1 2 0 59).isSome &&
        (parseNum sec 1 2 0 61).isSome
  | _ => false

/-- Validate the `%Z` field (timezone names accepted case-insensitively). -/
def validTz (s : String) : Bool :=
  pyLower s == "utc" || pyLower s == "gmt"

/-- Split on whitespace runs, dropping empty fields. -/
def splitWsAux (cur : List Char) : List Char → List (List Char)
  | [] => if cur = [] then [] else [cur.reverse]
  | c :: cs =>
      if c.isWhitespace then
        (if cur = [] then splitWsAux [] cs else cur.reverse :: splitWsAux [] cs)
      else splitWsAux (c :: cur) cs

/-- Whitespace-run split of a string. -/
def splitWs (s : String) : List String :=
  (splitWsAux [] s.data).map String.mk

/-- Whether the first character is whitespace. -/
def headCharWs (s : String) : Bool :=
  match s.data with
  | [] => false
  | c :: _ => c.isWhitespace

/-- Whether the last character is whitespace. -/
def lastCharWs (s : String) : Bool :=
  match s.data.getLast? with
  | some c => c.isWhitespace
  | none => false

/-- Model of `datetime.strptime(s, "%Y-%m-%d  %X %Z")`: `none` is the
`ValueError` case. -/
def pyStrptime (s : String) : Option Date :=
  if headCharWs s || lastCharWs s then none
  else
    match splitWs s with
    | [df, tf, zf] =>
        match parseDateField df with
        | none => none
        | some d => if parseTimeField tf && validTz zf then some d else none
    | _ => none

/-- Left pad a decimal numeral with zeros to a given width. -/
def padNum (w : Nat) (n : Nat) : String :=
  if (toString n).length ≥ w then toString n
  else String.mk (List.replicate (w - (toString n).length) '0') ++ toString n

/-- Model of `.strftime('%Y/%m/%d')`. -/
def pyStrftimeYmd (d : Date) : String :=
  padNum 4 d.year ++ "/" ++ padNum 2 d.month ++ "/" ++ padNum 2 d.day

/-! ## Search-expression composition (source lines 116-117, 159-169) -/

/-- `severity_search = "(severity = " + ' or severity = '.join([x.capitalize()
for x in args["severity"].split(',')]) + ")"`. -/
def severity_search (sev : String) : String :=
  "(severity = " ++ joinSep " or severity = " ((pySplit ',' sev).map pyCapitalize) ++ ")"

/-- The full `--severity` pipeline: argparse applies `type = str.lower` to the
raw flag value before `severity_search` is composed. -/
def severitySearchOf (raw : String) : String :=
  severity_search (pyLower raw)

/-- `type_search = "(type = " + ' or type = '.join(args["type"].split(',')) + ")"`. -/
def type_search (t : String) : String :=
  "(type = " ++ joinSep " or type = " (pySplit ',' t) ++ ")"

/-- The errata search string before the optional upper date bound:
`"%s and %s and updated > '%s'" % (type_search, severity_search, from_date)`. -/
def composedSearchBase (tS sS fd : String) : String :=
  tS ++ " and " ++ sS ++ " and updated > " ++ "'" ++ fd ++ "'"

/-- The errata search string, with ` and updated < '<to_date>'` appended
exactly when `--to-date` is non-empty (Python truthiness of the string). -/
def composedSearch (tS sS fd td : String) : String :=
  if td ≠ "" then composedSearchBase tS sS fd ++ " and updated < " ++ "'" ++ td ++ "'"
  else composedSearchBase tS sS fd

/-! ## Entities read from API responses -/

structure Version where
  id : Nat
  version : String
  environment_ids : List Nat
deriving DecidableEq

structure Repo where
  id : Nat
  name : String
deriving DecidableEq

structure Errata where
  errata_id : String
  type : String
  severity : String
  reboot_suggested : Bool
deriving DecidableEq

structure ContentView where
  name : String
  last_published : Option String
  repositories : List Repo
  versions : List Version
deriving DecidableEq

structure Task where
  id : String
  pending : Bool
  progress : ℚ
  result : String
deriving DecidableEq

/-! ## Command-line arguments relevant to the per-view processing -/

structure Args where
  typeArg : String
  severityArg : String
  from_date : String
  to_date : String
  propagate : Bool
  update_hosts : String
  dry_run : Bool
deriving DecidableEq

/-! ## Request payloads and observable events -/

structure PubEnv where
  content_view_version_id : Nat
  environment_ids : List Nat
deriving DecidableEq

/-- Body of the `content_view_versions/incremental_update` POST. -/
structure PublishPayload where
  resolve_dependencies : Nat
  errata_ids : List String
  content_view_version_environments : List PubEnv
  propagate_all_composites : Option Nat
deriving DecidableEq

/-- Body of the `job_invocations` POST. -/
structure JobPayload where
  job_template_id : Nat
  errata_input : String
  search_query : String
  targeting_type : String
deriving DecidableEq

/-- Observable effects of a run, in order of occurrence. -/
inductive Event where
  | logDebug (msg : String)
  | logInfo (msg : String)
  | logWarning (msg : String)
  | logError (msg : String)
  | logProgress (p : ℚ)
  | sleep60
  | errataGet (repoId : Nat) (search : String)
  | taskFetch (id : String)
  | publishPost (payload : PublishPayload)
  | jobPost (payload : JobPayload)
deriving DecidableEq

/-- Abnormal termination: an uncaught Python exception (or a poll oracle that
never reaches a terminal task, i.e. the loop would spin forever). -/
inductive Abnormal where
  | nameError
  | valueError (s : String)
  | pollHang
deriving DecidableEq

/-- Per-content-view server oracle: the content-view lookup result (`none` is
the bare-`except` path), the errata each repository returns, the response of
the publish POST, the successive task-fetch responses, and the job-template
search results. -/
structure CVWorld where
  lookup : Option ContentView
  errataByRepo : List (Nat × List Errata)
  publishResponse : Task
  pollResponses : List Task
  templateResults : List Nat
deriving DecidableEq

/-! ## Per-content-view processing (source lines 133-260) -/

/-- Errata returned by the GET for a given repository id. -/
def findErrata (eb : List (Nat × List Errata)) (rid : Nat) : List Errata :=
  match eb.find? (fun p => p.fst = rid) with
  | some p => p.snd
  | none => []

/-- The info line logged for each errata found (source line 181). -/
def errataLogLine (e : Errata) : String :=
  "Found " ++ e.errata_id ++ " (" ++ pyCapitalize e.type ++ " - " ++ e.severity ++
    ") errata. Reboot suggested: " ++ (if e.reboot_suggested then "Yes" else "No") ++ "."

/-- Events of the per-repository errata scan (source lines 174-182). -/
def repoScanEvents (cv : ContentView) (eb : List (Nat × List Errata)) (search : String) :
    List Event :=
  cv.repositories.flatMap (fun r =>
    Event.logInfo ("Searching for erratas in repository " ++ r.name) ::
      Event.errataGet r.id search ::
        (findErrata eb r.id).map (fun e => Event.logInfo (errataLogLine e)))

/-- The errata ids appended while scanning the repositories. -/
def collectIds (cv : ContentView) (eb : List (Nat × List Errata)) : List String :=
  cv.repositories.flatMap (fun r => (findErrata eb r.id).map (fun e => e.errata_id))

/-- `errata_ids = list(set(errata_ids))` (source line 185); element order of a
Python set is unspecified and not significant downstream. -/
def dedupIds (l : List String) : List String := l.dedup

/-- `last_published` with the null default (source lines 150-152). -/
def lastPublishedOr (cv : ContentView) : String :=
  match cv.last_published with
  | none => "1970-01-01 00:00:00 UTC"
  | some s => s

/-- The from-date computation (source lines 149-156).  `Except.error s` is the
uncaught `ValueError` raised by `strptime` on `s`. -/
def resolveFromDate (a : Args) (cv : ContentView) : Except String String :=
  if a.from_date = "" then
    match pyStrptime (lastPublishedOr cv) with
    | none => Except.error (lastPublishedOr cv)
    | some d => Except.ok (pyStrftimeYmd d)
  else Except.ok a.from_date

/-- Debug lines logged between the from-date computation and the repository
scan (source lines 156 and 170; the end-date line prints `from_date`, exactly
as the source does). -/
def preScanEvents (a : Args) (fd : String) : List Event :=
  Event.logDebug ("Using " ++ fd ++ " as start date.") ::
    (if a.to_date ≠ "" then [Event.logDebug ("Using " ++ fd ++ " as end date.")] else [])

/-- Log lines of the version loop (source lines 188-192).  The loop only logs;
it never assigns the selected version anywhere. -/
def versionLogEvents (cv : ContentView) (nids : Nat) : List Event :=
  cv.versions.map (fun v =>
    if 1 ∈ v.environment_ids then
      Event.logInfo ("Selected content-view " ++ cv.name ++ " (version " ++ v.version ++
        ") as baseline to include " ++ toString nids ++ " erratas.")
    else
      Event.logDebug ("Skipping content-view " ++ cv.name ++ " (version " ++ v.version ++
        "): Not in Library."))

/-- Value of the Python loop variable `version` after `for version in
cv["versions"]` has run: the last element iterated, `none` when the list was
empty and the variable was never assigned. -/
def lastVar (vs : List Version) : Option Version :=
  vs.foldl (fun _ v => some v) none

/-- The incremental-update POST body (source lines 195-204).  `errata_ids` is
the `add_content.errata_ids` field. -/
def mkPayload (a : Args) (ids : List String) (v : Version) : PublishPayload :=
  { resolve_dependencies := 1
    errata_ids := ids
    content_view_version_environments := [⟨v.id, [1]⟩]
    propagate_all_composites := if a.propagate then some 1 else none }

/-- The task poll loop (source lines 212-218): while the current task is
pending, log the progress variable, sleep 60 s, re-fetch the task and recompute
`progress = task.progress * 100`.  The remaining fetch responses are consumed
from the oracle list; an exhausted oracle means the loop never terminates. -/
def pollLoop (t : Task) (pr : ℚ) : List Task → List Event × Option Task
  | [] =>
      if t.pending then ([Event.logProgress pr, Event.sleep60, Event.taskFetch t.id], none)
      else ([], some t)
  | t2 :: rest =>
      if t.pending then
        (Event.logProgress pr :: Event.sleep60 :: Event.taskFetch t.id ::
           (pollLoop t2 (t2.progress * 100) rest).1,
         (pollLoop t2 (t2.progress * 100) rest).2)
      else ([], some t)

/-- The search query composed for the job invocation (source lines 229-231). -/
def installQuery (hosts : String) (ids : List String) : String :=
  "(lifecycle_environment=" ++ joinSep " or lifecycle_environment=" (pySplit ',' hosts) ++
    ") and (applicable_errata=" ++ joinSep " or applicable_errata=" ids ++ ")"

/-- The host-installation step (source lines 225-255), reached only after a
successful publish. -/
def installPhase (a : Args) (ids : List String) (w : CVWorld) : List Event :=
  if a.update_hosts ≠ "" then
    Event.logInfo "Installing errata in hosts (if applicable)." ::
      (match w.templateResults with
       | [] => [Event.logInfo "Remote execution job \"Install Errata - Katello SSH Default\" not found. Skipping errata installation."]
       | tid :: _ =>
           [Event.jobPost ⟨tid, joinSep "," ids, installQuery a.update_hosts ids, "static_query"⟩])
  else [Event.logDebug "Skipping errata installation as no host lifecycle environments were provided."]

/-- The publish / dry-run branch (source lines 207-258), entered with the
payload already constructed. -/
def publishPhase (a : Args) (cvName : String) (ids : List String)
    (payload : PublishPayload) (w : CVWorld) : List Event × Option Abnormal :=
  if a.dry_run = false then
    match pollLoop w.publishResponse 0 w.pollResponses with
    | (pevs, none) =>
        (Event.logInfo "Publishing incremental content-view version." ::
           Event.publishPost payload :: pevs, some Abnormal.pollHang)
    | (pevs, some t) =>
        if t.result ≠ "success" then
          (Event.logInfo "Publishing incremental content-view version." ::
             Event.publishPost payload :: pevs ++
               [Event.logError "Error publishing incremental content-view version. Skipping installation in hosts."],
           none)
        else
          (Event.logInfo "Publishing incremental content-view version." ::
             Event.publishPost payload :: pevs ++ installPhase a ids w ++
               [Event.logInfo ("Finished processing CV " ++ cvName ++ ".")],
           none)
  else
    ([Event.logInfo "Skipping incremental content-view and/or installation in hosts as dry-run was specified.",
      Event.logInfo ("Finished processing CV " ++ cvName ++ ".")], none)

/-- Version loop, payload construction and publish (source lines 186-258).
The payload uses the leaked loop variable `version`; with an empty versions
list its construction raises `NameError` before the dry-run check. -/
def publishSection (a : Args) (cvName : String) (cv : ContentView) (ids : List String)
    (w : CVWorld) : List Event × Option Abnormal :=
  match lastVar cv.versions with
  | none => (versionLogEvents cv ids.length, some Abnormal.nameError)
  | some v =>
      (versionLogEvents cv ids.length ++ (publishPhase a cvName ids (mkPayload a ids v) w).1,
       (publishPhase a cvName ids (mkPayload a ids v) w).2)

/-- Repository scan, dedup and the errata-found test (source lines 172-260). -/
def scanSection (a : Args) (cvName : String) (cv : ContentView) (w : CVWorld)
    (search : String) : List Event × Option Abnormal :=
  if (dedupIds (collectIds cv w.errataByRepo)).length > 0 then
    (repoScanEvents cv w.errataByRepo search ++
       (publishSection a cvName cv (dedupIds (collectIds cv w.errataByRepo)) w).1,
     (publishSection a cvName cv (dedupIds (collectIds cv w.errataByRepo)) w).2)
  else
    (repoScanEvents cv w.errataByRepo search ++
       [Event.logInfo ("No new existing erratas for " ++ cv.name ++ " CV.")], none)

/-- One iteration of the main content-view loop (source lines 133-260), given
the already-composed type and severity search fragments. -/
def processCV (a : Args) (tS sS cvName : String) (w : CVWorld) :
    List Event × Option Abnormal :=
  match w.lookup with
  | none =>
      ([Event.logInfo ("Processing content-view " ++ cvName ++ "."),
        Event.logWarning ("Skipping non existing content-view " ++ cvName ++ ".")], none)
  | some cv =>
      match resolveFromDate a cv with
      | Except.error bad =>
          ([Event.logInfo ("Processing content-view " ++ cvName ++ ".")],
           some (Abnormal.valueError bad))
      | Except.ok fd =>
          (Event.logInfo ("Processing content-view " ++ cvName ++ ".") ::
             (preScanEvents a fd ++
               (scanSection a cvName cv w (composedSearch tS sS fd a.to_date)).1),
           (scanSection a cvName cv w (composedSearch tS sS fd a.to_date)).2)

/-- The whole content-view loop: an uncaught exception aborts the run; a view
that processed normally (including warn-and-skip) is followed by the next. -/
def runCVs (a : Args) (tS sS : String) : List (String × CVWorld) → List Event × Option Abnormal
  | [] => ([], none)
  | (n, w) :: rest =>
      match (processCV a tS sS n w).2 with
      | some x => ((processCV a tS sS n w).1, some x)
      | none =>
          ((processCV a tS sS n w).1 ++ (runCVs a tS sS rest).1, (runCVs a tS sS rest).2)

/-! ## Trace observations -/

/-- Whether an event is one of the two mutating POSTs. -/
def isPost : Event → Bool
  | Event.publishPost _ => true
  | Event.jobPost _ => true
  | _ => false

/-- Whether an event is the job-invocation POST. -/
def isJobPost : Event → Bool
  | Event.jobPost _ => true
  | _ => false

/-- Whether an event is the 60-second sleep of the poll loop. -/
def isSleep : Event → Bool
  | Event.sleep60 => true
  | _ => false

/-- A trace with neither a publish POST nor a job POST. -/
def cleanOfPosts (evs : List Event) : Bool := evs.all (fun e => !(isPost e))

/-- A trace with no job-invocation POST. -/
def noJob (evs : List Event) : Bool := evs.all (fun e => !(isJobPost e))

/-- Number of poll-loop sleeps in a trace. -/
def countSleeps (evs : List Event) : Nat := (evs.filter isSleep).length

/-- The progress percentages logged by the poll loop, in order. -/
def progressLogs (evs : List Event) : List ℚ :=
  evs.filterMap (fun e =>
    match e with
    | Event.logProgress p => some p
    | _ => none)

/-- The publish POST payloads appearing in a trace, in order. -/
def publishPayloads (evs : List Event) : List PublishPayload :=
  evs.filterMap (fun e =>
    match e with
    | Event.publishPost p => some p
    | _ => none)

/-- The dry-run skip log line (source line 257). -/
def dryRunSkipEvent : Event :=
  Event.logInfo "Skipping incremental content-view and/or installation in hosts as dry-run was specified."

/-- The failed-publish error log line (source line 221). -/
def publishErrorEvent : Event :=
  Event.logError "Error publishing incremental content-view version. Skipping installation in hosts."

/-! ## Substring machinery for the search-string claims -/

/-- Whether `p` is a prefix of the second list (boolean, by direct recursion). -/
def leadsWith : List Char → List Char → Bool
  | [], _ => true
  | _ :: _, [] => false
  | p :: ps, c :: cs => p == c && leadsWith ps cs

/-- Whether `pat` occurs contiguously somewhere in the second list. -/
def hasSub (pat : List Char) : List Char → Bool
  | [] => leadsWith pat []
  | c :: cs => leadsWith pat (c :: cs) || hasSub pat cs

/-- Whether `pat` occurs contiguously in `s`. -/
def strHasSub (s pat : String) : Bool := hasSub pat.data s.data

/-! ## Concrete fixtures used by evaluation theorems and witnesses -/

/-- Composed type search for `--type security` (the default pipeline). -/
def tSW : String := type_search "security"

/-- Composed severity search for `--severity critical` (the default pipeline). -/
def sSW : String := severity_search "critical"

/-- A security/critical erratum as returned by the errata endpoint. -/
def errW : Errata := ⟨"RHSA-1", "security", "Critical", true⟩

/-- Content view whose last (most recently iterated) version is not in
Library: version 10 is in environment 1 (Library), version 20 is not. -/
def cvC1 : ContentView := ⟨"cv1", none, [⟨7, "r1"⟩], [⟨10, "1.0", [1]⟩, ⟨20, "2.0", [5]⟩]⟩

def worldC1 : CVWorld := ⟨some cvC1, [(7, [errW])], ⟨"t1", false, 1, "success"⟩, [], []⟩

def argsC1 : Args := ⟨"security", "critical", "2020/01/01", "", false, "", false⟩

/-- Content view with an empty versions list (e.g. never published). -/
def cvNoVer : ContentView := ⟨"cv1", none, [⟨7, "r1"⟩], []⟩

def worldNoVer : CVWorld := ⟨some cvNoVer, [(7, [errW])], ⟨"t1", false, 1, "success"⟩, [], []⟩

/-- Dry-run arguments with an explicit from-date. -/
def argsDry : Args := ⟨"security", "critical", "2020/01/01", "", false, "", true⟩

/-- Content view with a single version promoted to Library. -/
def cvOneVer : ContentView := ⟨"cv1", none, [⟨7, "r1"⟩], [⟨10, "1.0", [1]⟩]⟩

def worldOneVer : CVWorld := ⟨some cvOneVer, [(7, [errW])], ⟨"t1", false, 1, "success"⟩, [], []⟩

/-- World whose publish task comes back terminal with result `"failed"`;
a job template is available and host environments are requested. -/
def worldFailed : CVWorld := ⟨some cvOneVer, [(7, [errW])], ⟨"t1", false, 1, "failed"⟩, [], [42]⟩

def argsHosts : Args := ⟨"security", "critical", "2020/01/01", "", false, "Production", false⟩

/-- Two repositories both returning the same erratum. -/
def cvTwoRepos : ContentView := ⟨"cv6", none, [⟨1, "r1"⟩, ⟨2, "r2"⟩], [⟨10, "1.0", [1]⟩]⟩

def ebDup : List (Nat × List Errata) := [(1, [errW]), (2, [errW])]

/-- Content view whose `last_published` string does not match the
`strptime` pattern. -/
def cvBadDate : ContentView := ⟨"cv1", some "garbage", [⟨7, "r1"⟩], [⟨10, "1.0", [1]⟩]⟩

def worldBadDate : CVWorld := ⟨some cvBadDate, [(7, [errW])], ⟨"t1", false, 1, "success"⟩, [], []⟩

def argsNoFrom : Args := ⟨"security", "critical", "", "", false, "", false⟩

/-- Poll fixture: the publish POST answers pending, the two task fetches
answer pending then terminal success. -/
def taskC4a : Task := ⟨"t0", true, 0, ""⟩

def taskC4b : Task := ⟨"t1", true, 1/20, ""⟩

def taskC4c : Task := ⟨"t2", false, 1, "success"⟩

/-! ## General lemmas about the embedding -/

theorem foldl_some_isSome (l : List Version) (x : Version) :
    (List.foldl (fun _ v => some v) (some x) l).isSome = true := by
  induction l generalizing x with
  | nil => rfl
  | cons a l ih => exact ih a

theorem lastVar_cons (a : Version) (l : List Version) :
    lastVar (a :: l) = List.foldl (fun _ v => some v) (some a) l := rfl

theorem lastVar_some_of_ne_nil (vs : List Version) (h : vs ≠ []) :
    ∃ v, lastVar vs = some v := by
  cases vs with
  | nil => exact absurd rfl h
  | cons a l =>
      rw [lastVar_cons]
      exact Option.isSome_iff_exists.mp (foldl_some_isSome l a)

theorem mem_preScan_noPost (a : Args) (fd : String) (e : Event)
    (he : e ∈ preScanEvents a fd) : isPost e = false := by
  rw [preScanEvents] at he
  by_cases h : a.to_date ≠ "" <;> simp [h] at he
  · rcases he with he | he <;> subst he <;> rfl
  · subst he; rfl

theorem mem_repoScan_noPost (cv : ContentView) (eb : List (Nat × List Errata))
    (s : String) (e : Event) (he : e ∈ repoScanEvents cv eb s) : isPost e = false := by
  rw [repoScanEvents] at he
  simp only [List.mem_flatMap, List.mem_cons, List.mem_map] at he
  obtain ⟨r, _, he⟩ := he
  rcases he with he | he | ⟨x, _, he⟩ <;> subst he <;> rfl

theorem mem_versionLogs_noPost (cv : ContentView) (nn : Nat) (e : Event)
    (he : e ∈ versionLogEvents cv nn) : isPost e = false := by
  rw [versionLogEvents] at he
  simp only [List.mem_map] at he
  obtain ⟨v, _, he⟩ := he
  by_cases h1 : 1 ∈ v.environment_ids <;> simp [h1] at he <;> subst he <;> rfl

theorem mem_pollLoop_noPost (rest : List Task) (t : Task) (pr : ℚ) (e : Event)
    (he : e ∈ (pollLoop t pr rest).1) : isPost e = false := by
  induction rest generalizing t pr with
  | nil =>
      rw [pollLoop] at he
      by_cases h : t.pending = true <;> simp [h] at he
      rcases he with he | he | he <;> subst he <;> rfl
  | cons t2 rest ih =>
      rw [pollLoop] at he
      by_cases h : t.pending = true <;> simp [h] at he
      rcases he with he | he | he | he
      · subst he; rfl
      · subst he; rfl
      · subst he; rfl
      · exact ih t2 (t2.progress * 100) he

theorem isJobPost_false_of_isPost_false (e : Event) (h : isPost e = false) :
    isJobPost e = false := by
  cases e <;> simp [isPost, isJobPost] at h ⊢

theorem runCVs_cons_some (a : Args) (tS sS n : String) (w : CVWorld)
    (rest : List (String × CVWorld)) (x : Abnormal)
    (h : (processCV a tS sS n w).2 = some x) :
    runCVs a tS sS ((n, w) :: rest) = ((processCV a tS sS n w).1, some x) := by
  simp [runCVs, h]

theorem runCVs_cons_none (a : Args) (tS sS n : String) (w : CVWorld)
    (rest : List (String × CVWorld))
    (h : (processCV a tS sS n w).2 = none) :
    runCVs a tS sS ((n, w) :: rest) =
      ((processCV a tS sS n w).1 ++ (runCVs a tS sS rest).1, (runCVs a tS sS rest).2) := by
  simp [runCVs, h]

theorem processCV_reduce (a : Args) (tS sS n : String) (w : CVWorld)
    (cv : ContentView) (fd : String)
    (hlk : w.lookup = some cv) (hfd : resolveFromDate a cv = Except.ok fd)
    (hids : dedupIds (collectIds cv w.errataByRepo) ≠ []) :
    processCV a tS sS n w =
      (Event.logInfo ("Processing content-view " ++ n ++ ".") ::
         (preScanEvents a fd ++
           (repoScanEvents cv w.errataByRepo (composedSearch tS sS fd a.to_date) ++
             (publishSection a n cv (dedupIds (collectIds cv w.errataByRepo)) w).1)),
       (publishSection a n cv (dedupIds (collectIds cv w.errataByRepo)) w).2) := by
  have hlen : 0 < (dedupIds (collectIds cv w.errataByRepo)).length :=
    List.length_pos.mpr hids
  simp only [processCV, hlk, hfd]
  rw [scanSection, if_pos hlen]

theorem publishSection_none (a : Args) (n : String) (cv : ContentView)
    (ids : List String) (w : CVWorld) (hv : lastVar cv.versions = none) :
    publishSection a n cv ids w = (versionLogEvents cv ids.length, some Abnormal.nameError) := by
  rw [publishSection, hv]

theorem publishSection_some (a : Args) (n : String) (cv : ContentView)
    (ids : List String) (w : CVWorld) (v : Version) (hv : lastVar cv.versions = some v) :
    publishSection a n cv ids w =
      (versionLogEvents cv ids.length ++ (publishPhase a n ids (mkPayload a ids v) w).1,
       (publishPhase a n ids (mkPayload a ids v) w).2) := by
  rw [publishSection, hv]

theorem publishPhase_dry (a : Args) (n : String) (ids : List String)
    (payload : PublishPayload) (w : CVWorld) (hdry : a.dry_run = true) :
    publishPhase a n ids payload w =
      ([dryRunSkipEvent, Event.logInfo ("Finished processing CV " ++ n ++ ".")], none) := by
  rw [publishPhase, hdry]
  rfl

theorem publishPhase_failed (a : Args) (n : String) (ids : List String)
    (payload : PublishPayload) (w : CVWorld) (pevs : List Event) (t : Task)
    (hdry : a.dry_run = false)
    (hpoll : pollLoop w.publishResponse 0 w.pollResponses = (pevs, some t))
    (hres : t.result ≠ "success") :
    publishPhase a n ids payload w =
      (Event.logInfo "Publishing incremental content-view version." ::
         Event.publishPost payload :: pevs ++ [publishErrorEvent], none) := by
  rw [publishPhase, hdry, hpoll]
  simp [hres, publishErrorEvent]

/-! ## Claim theorems -/

/-- C5: for every `--severity` input, the composed severity search clause
title-cases each comma-separated token independently of the input's original
case: any input whose lower-casing is `critical,low` yields
`(severity = Critical or severity = Low)`. -/
theorem C5_severity_title_case (raw : String) (h : pyLower raw = "critical,low") :
    severitySearchOf raw = "(severity = Critical or severity = Low)" := by
  unfold severitySearchOf
  rw [h]
  rfl

theorem C5_severity_title_case_witness :
    pyLower "CriTIcal,LOW" = "critical,low" ∧
    severitySearchOf "CriTIcal,LOW" = "(severity = Critical or severity = Low)" :=
  ⟨by decide, C5_severity_title_case "CriTIcal,LOW" (by decide)⟩

/-- C6: errata id collection per content view is idempotent under duplicate
input: every id the repositories return appears exactly once in the final
deduplicated list used for the publish payload. -/
theorem C6_dedup_idempotent (cv : ContentView) (eb : List (Nat × List Errata))
    (i : String) (h : i ∈ collectIds cv eb) :
    (dedupIds (collectIds cv eb)).count i = 1 := by
  unfold dedupIds
  exact List.count_eq_one_of_mem (List.nodup_dedup _) (List.mem_dedup.mpr h)

theorem C6_dedup_idempotent_witness :
    "RHSA-1" ∈ collectIds cvTwoRepos ebDup ∧
    collectIds cvTwoRepos ebDup = ["RHSA-1", "RHSA-1"] ∧
    (dedupIds (collectIds cvTwoRepos ebDup)).count "RHSA-1" = 1 :=
  ⟨by decide, by decide, C6_dedup_idempotent cvTwoRepos ebDup "RHSA-1" (by decide)⟩

/-- C7: if `--from-date` is empty and the view's `last_published` timestamp is
null, the effective lower date bound used in the errata search string is
`1970/01/01`. -/
theorem C7_epoch_default (a : Args) (cv : ContentView)
    (h1 : a.from_date = "") (h2 : cv.last_published = none) :
    resolveFromDate a cv = Except.ok "1970/01/01" := by
  rw [resolveFromDate, if_pos h1]
  simp only [lastPublishedOr, h2]
  rfl

theorem C7_epoch_default_witness :
    argsNoFrom.from_date = "" ∧ cvNoVer.last_published = none ∧
    resolveFromDate argsNoFrom cvNoVer = Except.ok "1970/01/01" :=
  ⟨rfl, rfl, C7_epoch_default argsNoFrom cvNoVer rfl rfl⟩

/-- C1: evaluation of the code at a view whose versions list ends with a
version that is not in Library.  The only version whose `environment_ids`
contains the Library id 1 is version 10, and the code's own version loop logs
it as the selected baseline; yet the publish POST payload carries
`content_view_version_id = 20`, the last element of the versions list, because
the loop body never assigns the baseline and the leaked loop variable is used
instead. -/
theorem C1_baseline_skips_library :
    cvC1.versions.filter (fun v => v.environment_ids.contains 1) = [⟨10, "1.0", [1]⟩] ∧
    Event.logInfo "Selected content-view cv1 (version 1.0) as baseline to include 1 erratas." ∈
      (processCV argsC1 tSW sSW "cv1" worldC1).1 ∧
    publishPayloads (processCV argsC1 tSW sSW "cv1" worldC1).1 =
      [⟨1, ["RHSA-1"], [⟨20, [1]⟩], none⟩] := by
  refine ⟨by decide, by decide, by decide⟩

/-- C4 counterexample: with the publish call's task responses being
pending twice and then terminal success (`taskC4a` is the POST response,
`taskC4b` and `taskC4c` the two fetches), the loop does perform exactly two
sleep/poll cycles, but it logs only `0%` followed by ONE intermediate
percentage (`taskC4b.progress * 100 = 5`), not two: the progress of the final
fetch is computed but the loop exits before logging it. -/
theorem C4_counterexample :
    countSleeps (pollLoop taskC4a 0 [taskC4b, taskC4c]).1 = 2 ∧
    progressLogs (pollLoop taskC4a 0 [taskC4b, taskC4c]).1 = [0, 5] ∧
    (progressLogs (pollLoop taskC4a 0 [taskC4b, taskC4c]).1).length = 2 := by
  refine ⟨by decide, ?_, by decide⟩
  show progressLogs (pollLoop taskC4a 0 [taskC4b, taskC4c]).1 = [0, 5]
  norm_num [pollLoop, taskC4a, taskC4b, taskC4c, progressLogs, List.filterMap_cons]

/-- C4 (amended): if the publish call's task response sequence is pending=true
twice followed by pending=false with result "success", the poll loop performs
exactly two sleep/poll cycles before proceeding, logging progress 0% first and
then one intermediate percentage (the first re-fetched task's
`progress * 100`); the final task's progress is computed but never logged. -/
theorem C4_two_sleep_cycles (i0 i1 i2 : String) (q0 q1 q2 : ℚ) (r0 r1 : String) :
    pollLoop ⟨i0, true, q0, r0⟩ 0 [⟨i1, true, q1, r1⟩, ⟨i2, false, q2, "success"⟩] =
      ([Event.logProgress 0, Event.sleep60, Event.taskFetch i0,
        Event.logProgress (q1 * 100), Event.sleep60, Event.taskFetch i1],
       some ⟨i2, false, q2, "success"⟩) ∧
    countSleeps (pollLoop ⟨i0, true, q0, r0⟩ 0
      [⟨i1, true, q1, r1⟩, ⟨i2, false, q2, "success"⟩]).1 = 2 ∧
    progressLogs (pollLoop ⟨i0, true, q0, r0⟩ 0
      [⟨i1, true, q1, r1⟩, ⟨i2, false, q2, "success"⟩]).1 = [0, q1 * 100] :=
  ⟨rfl, rfl, rfl⟩

/-- C9: if errata are found for a content view whose versions list is empty,
the publish-payload construction references the never-assigned loop variable
(`NameError`) and the run terminates abnormally — regardless of the dry-run
flag, since version selection and payload construction precede the dry-run
check. -/
theorem C9_empty_versions_crash (a : Args) (tS sS n : String) (w : CVWorld)
    (cv : ContentView) (fd : String)
    (hlk : w.lookup = some cv) (hfd : resolveFromDate a cv = Except.ok fd)
    (hv : cv.versions = [])
    (hids : dedupIds (collectIds cv w.errataByRepo) ≠ [])
    (rest : List (String × CVWorld)) :
    (processCV a tS sS n w).2 = some Abnormal.nameError ∧
    (runCVs a tS sS ((n, w) :: rest)).2 = some Abnormal.nameError := by
  have hlv : lastVar cv.versions = none := by rw [hv]; rfl
  have h2 : (processCV a tS sS n w).2 = some Abnormal.nameError := by
    rw [processCV_reduce a tS sS n w cv fd hlk hfd hids,
      publishSection_none a n cv _ w hlv]
  exact ⟨h2, by rw [runCVs_cons_some a tS sS n w rest Abnormal.nameError h2]⟩

theorem C9_empty_versions_crash_witness :
    argsDry.dry_run = true ∧ cvNoVer.versions = [] ∧
    dedupIds (collectIds cvNoVer worldNoVer.errataByRepo) ≠ [] ∧
    (processCV argsDry tSW sSW "cv1" worldNoVer).2 = some Abnormal.nameError ∧
    (runCVs argsDry tSW sSW [("cv1", worldNoVer)]).2 = some Abnormal.nameError := by
  have h := C9_empty_versions_crash argsDry tSW sSW "cv1" worldNoVer cvNoVer
    "2020/01/01" rfl rfl rfl (by decide) []
  exact ⟨rfl, rfl, by decide, h.1, h.2⟩

/-- C10: if `--from-date` is empty and a resolved view's `last_published` is a
non-null string that does not parse against the `strptime` pattern, the
from-date computation raises an uncaught exception that aborts the entire run
(the remaining views are never processed), unlike a failed content-view lookup
which merely warns and continues. -/
theorem C10_parse_error_aborts (a : Args) (tS sS n : String) (w : CVWorld)
    (cv : ContentView) (s : String)
    (h1 : a.from_date = "") (hlk : w.lookup = some cv)
    (h2 : cv.last_published = some s) (h3 : pyStrptime s = none)
    (rest : List (String × CVWorld)) :
    (processCV a tS sS n w).2 = some (Abnormal.valueError s) ∧
    (runCVs a tS sS ((n, w) :: rest)).1 = (processCV a tS sS n w).1 ∧
    (runCVs a tS sS ((n, w) :: rest)).2 = some (Abnormal.valueError s) ∧
    (∀ (n2 : String) (w2 : CVWorld), w2.lookup = none →
      (runCVs a tS sS ((n2, w2) :: rest)).2 = (runCVs a tS sS rest).2) := by
  have hfd : resolveFromDate a cv = Except.error s := by
    rw [resolveFromDate, if_pos h1]
    simp only [lastPublishedOr, h2, h3]
  have hp : (processCV a tS sS n w).2 = some (Abnormal.valueError s) := by
    simp only [processCV, hlk, hfd]
  have hr := runCVs_cons_some a tS sS n w rest (Abnormal.valueError s) hp
  refine ⟨hp, by rw [hr], by rw [hr], ?_⟩
  intro n2 w2 hw2
  have hp2 : (processCV a tS sS n2 w2).2 = none := by
    simp only [processCV, hw2]
  rw [runCVs_cons_none a tS sS n2 w2 rest hp2]

theorem C10_parse_error_aborts_witness :
    argsNoFrom.from_date = "" ∧ cvBadDate.last_published = some "garbage" ∧
    pyStrptime "garbage" = none ∧
    (processCV argsNoFrom tSW sSW "cv1" worldBadDate).2 =
      some (Abnormal.valueError "garbage") ∧
    (runCVs argsNoFrom tSW sSW [("cv1", worldBadDate), ("cv2", worldOneVer)]).2 =
      some (Abnormal.valueError "garbage") := by
  have h := C10_parse_error_aborts argsNoFrom tSW sSW "cv1" worldBadDate cvBadDate
    "garbage" rfl rfl rfl (by decide) [("cv2", worldOneVer)]
  exact ⟨rfl, rfl, by decide, h.1, h.2.2.1⟩

/-- C2 counterexample: a dry-run view with errata found but an empty versions
list.  The claim's "the run logs a skip and proceeds to the next view" fails:
no skip is logged, the processing crashes (`NameError`), and the next view is
never reached. -/
theorem C2_counterexample :
    argsDry.dry_run = true ∧
    dedupIds (collectIds cvNoVer worldNoVer.errataByRepo) = ["RHSA-1"] ∧
    dryRunSkipEvent ∉ (processCV argsDry tSW sSW "cv1" worldNoVer).1 ∧
    (processCV argsDry tSW sSW "cv1" worldNoVer).2 = some Abnormal.nameError ∧
    Event.logInfo "Processing content-view cv2." ∉
      (runCVs argsDry tSW sSW [("cv1", worldNoVer), ("cv2", worldOneVer)]).1 := by
  refine ⟨rfl, by decide, by decide, by decide, by decide⟩

/-- C2 (amended): for every run with the dry-run flag set, whenever errata are
found for a content view, no publish POST and no job-invocation POST are
issued for that view; provided the view's versions list is nonempty, the run
additionally logs a skip and proceeds to the next view (with an empty versions
list the payload construction crashes first, as in C9). -/
theorem C2_dry_run_no_posts (a : Args) (tS sS n : String) (w : CVWorld)
    (cv : ContentView) (fd : String)
    (hlk : w.lookup = some cv)
    (hfd : resolveFromDate a cv = Except.ok fd)
    (hids : dedupIds (collectIds cv w.errataByRepo) ≠ [])
    (hdry : a.dry_run = true) :
    cleanOfPosts (processCV a tS sS n w).1 = true ∧
    (cv.versions ≠ [] →
      dryRunSkipEvent ∈ (processCV a tS sS n w).1 ∧
      (processCV a tS sS n w).2 = none ∧
      ∀ rest, (runCVs a tS sS ((n, w) :: rest)).2 = (runCVs a tS sS rest).2) := by
  have hred := processCV_reduce a tS sS n w cv fd hlk hfd hids
  cases hv : lastVar cv.versions with
  | none =>
      have hvs : cv.versions = [] := by
        by_contra hne
        obtain ⟨v, hsome⟩ := lastVar_some_of_ne_nil cv.versions hne
        rw [hv] at hsome
        exact Option.noConfusion hsome
      refine ⟨?_, fun hne => absurd hvs hne⟩
      simp only [hred, publishSection_none a n cv _ w hv]
      rw [cleanOfPosts, List.all_eq_true]
      intro e he
      simp only [List.mem_cons, List.mem_append, List.mem_singleton, List.not_mem_nil, or_false] at he
      rcases he with he | he | he | he
      · subst he; rfl
      · simp [mem_preScan_noPost a fd e he]
      · simp [mem_repoScan_noPost _ _ _ e he]
      · simp [mem_versionLogs_noPost _ _ e he]
  | some v =>
      have hps := publishSection_some a n cv (dedupIds (collectIds cv w.errataByRepo)) w v hv
      have hpd := publishPhase_dry a n (dedupIds (collectIds cv w.errataByRepo))
        (mkPayload a (dedupIds (collectIds cv w.errataByRepo)) v) w hdry
      have hnone : (processCV a tS sS n w).2 = none := by
        simp only [hred, hps, hpd]
      refine ⟨?_, fun _ => ⟨?_, hnone, fun rest => ?_⟩⟩
      · simp only [hred, hps, hpd]
        rw [cleanOfPosts, List.all_eq_true]
        intro e he
        simp only [List.mem_cons, List.mem_append, List.mem_singleton, List.not_mem_nil, or_false] at he
        rcases he with he | he | he | he | he | he
        · subst he; rfl
        · simp [mem_preScan_noPost a fd e he]
        · simp [mem_repoScan_noPost _ _ _ e he]
        · simp [mem_versionLogs_noPost _ _ e he]
        · subst he; rfl
        · subst he; rfl
      · simp only [hred, hps, hpd]
        simp [dryRunSkipEvent]
      · rw [runCVs_cons_none a tS sS n w rest hnone]

theorem C2_dry_run_no_posts_witness :
    argsDry.dry_run = true ∧
    dedupIds (collectIds cvOneVer worldOneVer.errataByRepo) ≠ [] ∧
    cvOneVer.versions ≠ [] ∧
    cleanOfPosts (processCV argsDry tSW sSW "cv1" worldOneVer).1 = true ∧
    dryRunSkipEvent ∈ (processCV argsDry tSW sSW "cv1" worldOneVer).1 ∧
    (processCV argsDry tSW sSW "cv1" worldOneVer).2 = none := by
  have h := C2_dry_run_no_posts argsDry tSW sSW "cv1" worldOneVer cvOneVer
    "2020/01/01" rfl rfl (by decide) rfl
  have h2 := h.2 (by decide)
  exact ⟨rfl, by decide, by decide, h.1, h2.1, h2.2.1⟩

/-- C3: for every content view whose publish task terminates with a result
other than "success", the host-installation step (job-invocation POST) is
never reached for that view, the error is logged, and processing continues
with the next content view rather than aborting the run. -/
theorem C3_publish_failure (a : Args) (tS sS n : String) (w : CVWorld)
    (cv : ContentView) (fd : String) (pevs : List Event) (t : Task) (v : Version)
    (hlk : w.lookup = some cv)
    (hfd : resolveFromDate a cv = Except.ok fd)
    (hids : dedupIds (collectIds cv w.errataByRepo) ≠ [])
    (hv : lastVar cv.versions = some v)
    (hdry : a.dry_run = false)
    (hpoll : pollLoop w.publishResponse 0 w.pollResponses = (pevs, some t))
    (hres : t.result ≠ "success") :
    noJob (processCV a tS sS n w).1 = true ∧
    publishErrorEvent ∈ (processCV a tS sS n w).1 ∧
    (processCV a tS sS n w).2 = none ∧
    ∀ rest, (runCVs a tS sS ((n, w) :: rest)).1 =
        (processCV a tS sS n w).1 ++ (runCVs a tS sS rest).1 ∧
      (runCVs a tS sS ((n, w) :: rest)).2 = (runCVs a tS sS rest).2 := by
  have hred := processCV_reduce a tS sS n w cv fd hlk hfd hids
  have hps := publishSection_some a n cv (dedupIds (collectIds cv w.errataByRepo)) w v hv
  have hpf := publishPhase_failed a n (dedupIds (collectIds cv w.errataByRepo))
    (mkPayload a (dedupIds (collectIds cv w.errataByRepo)) v) w pevs t hdry hpoll hres
  have hnone : (processCV a tS sS n w).2 = none := by
    simp only [hred, hps, hpf]
  refine ⟨?_, ?_, hnone, fun rest => ?_⟩
  · simp only [hred, hps, hpf]
    rw [noJob, List.all_eq_true]
    intro e he
    simp only [List.mem_cons, List.mem_append, List.mem_singleton, List.not_mem_nil, or_false] at he
    rcases he with he | he | he | he | (he | he | he) | he
    · subst he; rfl
    · simp [isJobPost_false_of_isPost_false e (mem_preScan_noPost a fd e he)]
    · simp [isJobPost_false_of_isPost_false e (mem_repoScan_noPost _ _ _ e he)]
    · simp [isJobPost_false_of_isPost_false e (mem_versionLogs_noPost _ _ e he)]
    · subst he; rfl
    · subst he; rfl
    · have he2 : e ∈ (pollLoop w.publishResponse 0 w.pollResponses).1 := by
        rw [hpoll]; exact he
      simp [isJobPost_false_of_isPost_false e (mem_pollLoop_noPost _ _ _ e he2)]
    · subst he; rfl
  · simp only [hred, hps, hpf]
    simp
  · rw [runCVs_cons_none a tS sS n w rest hnone]
    exact ⟨rfl, rfl⟩

theorem C3_publish_failure_witness :
    worldFailed.publishResponse.result = "failed" ∧
    argsHosts.update_hosts ≠ "" ∧ worldFailed.templateResults ≠ [] ∧
    noJob (processCV argsHosts tSW sSW "cv1" worldFailed).1 = true ∧
    publishErrorEvent ∈ (processCV argsHosts tSW sSW "cv1" worldFailed).1 ∧
    (processCV argsHosts tSW sSW "cv1" worldFailed).2 = none := by
  have h := C3_publish_failure argsHosts tSW sSW "cv1" worldFailed cvOneVer
    "2020/01/01" [] ⟨"t1", false, 1, "failed"⟩ ⟨10, "1.0", [1]⟩
    rfl rfl (by decide) rfl rfl rfl (by decide)
  exact ⟨rfl, by decide, by decide, h.1, h.2.1, h.2.2.1⟩

theorem leadsWith_append (p l r : List Char) (h : leadsWith p l = true) :
    leadsWith p (l ++ r) = true := by
  induction p generalizing l with
  | nil => rfl
  | cons a ps ih =>
      cases l with
      | nil => exact absurd h (by simp [leadsWith])
      | cons c cs =>
          rw [List.cons_append, leadsWith]
          rw [leadsWith, Bool.and_eq_true] at h
          rw [Bool.and_eq_true]
          exact ⟨h.1, ih cs h.2⟩

theorem hasSub_nil_pat (l : List Char) : hasSub [] l = true := by
  cases l with
  | nil => rfl
  | cons c cs => rw [hasSub]; rfl

theorem hasSub_append_left (p l r : List Char) (h : hasSub p l = true) :
    hasSub p (l ++ r) = true := by
  induction l with
  | nil =>
      rw [hasSub] at h
      cases p with
      | nil => exact hasSub_nil_pat r
      | cons a ps => exact absurd h (by simp [leadsWith])
  | cons c cs ih =>
      rw [hasSub, Bool.or_eq_true] at h
      rw [List.cons_append, hasSub, Bool.or_eq_true]
      rcases h with h | h
      · exact Or.inl (leadsWith_append p (c :: cs) r h)
      · exact Or.inr (ih h)

theorem hasSub_append_right (p l r : List Char) (h : hasSub p r = true) :
    hasSub p (l ++ r) = true := by
  induction l with
  | nil => exact h
  | cons c cs ih =>
      rw [List.cons_append, hasSub, Bool.or_eq_true]
      exact Or.inr ih

/-- C8: for every run, the errata search string contains an `updated >` clause
unconditionally, and it contains an `updated <` clause if and only if
`--to-date` is non-empty — provided the user-supplied fragments do not
themselves spell out an `updated <` clause (the hypothesis `h`). -/
theorem C8_date_clauses (tS sS fd td : String)
    (h : strHasSub (composedSearchBase tS sS fd) "updated <" = false) :
    strHasSub (composedSearch tS sS fd td) "updated >" = true ∧
    (strHasSub (composedSearch tS sS fd td) "updated <" = true ↔ td ≠ "") := by
  have hbase : strHasSub (composedSearchBase tS sS fd) "updated >" = true := by
    rw [strHasSub, composedSearchBase]
    simp only [String.data_append, List.append_assoc]
    apply hasSub_append_right
    apply hasSub_append_right
    apply hasSub_append_right
    apply hasSub_append_left
    decide
  constructor
  · rw [composedSearch]
    by_cases htd : td ≠ ""
    · rw [if_pos htd, strHasSub]
      simp only [String.data_append, List.append_assoc]
      rw [strHasSub] at hbase
      have := hasSub_append_left _ _
        ((" and updated < ").data ++ (("'").data ++ (td.data ++ ("'").data))) hbase
      simpa [List.append_assoc] using this
    · rw [if_neg htd]
      exact hbase
  · constructor
    · intro hup
      intro htd
      rw [composedSearch, if_neg (by simp [htd])] at hup
      rw [hup] at h
      exact Bool.noConfusion h
    · intro htd
      rw [composedSearch, if_pos htd, strHasSub]
      simp only [String.data_append, List.append_assoc]
      apply hasSub_append_right
      apply hasSub_append_left
      decide

theorem C8_date_clauses_witness :
    strHasSub (composedSearchBase tSW sSW "2020/01/01") "updated <" = false ∧
    strHasSub (composedSearch tSW sSW "2020/01/01" "2021/01/01") "updated >" = true ∧
    (strHasSub (composedSearch tSW sSW "2020/01/01" "2021/01/01") "updated <" = true ↔
      ("2021/01/01" : String) ≠ "") ∧
    strHasSub (composedSearch tSW sSW "2020/01/01" "") "updated <" = false := by
  have h := C8_date_clauses tSW sSW "2020/01/01" "2021/01/01" (by decide)
  exact ⟨by decide, h.1, h.2, by decide⟩

end Errata2cv
